import Mathlib

/-!
Shallow embedding of `src/MDEditor.tsx` from `niconicoj/react-md-editor`.

The component is a React class component.  We embed its pure decision logic:

* `MDEditorState` mirrors the TS `MDEditorState` (height, preview mode,
  fullscreen flag, value).  `defaultProps` guarantees every prop is defined
  after React's defaultProps merge, so merged props carry plain values; the
  raw (pre-merge) props keep `Option` fields.
* Event handlers become pure functions from their inputs to new state plus an
  explicit list of emitted effects (renderHTML / onChange calls, commands
  delegated to the orchestrator, DOM scrollTop writes).
* JavaScript numbers appearing in the scroll-sync division are modelled by
  `JSNum`: a rational together with the IEEE-754 special values `+Inf`,
  `-Inf` and `NaN`, with division and multiplication following IEEE-754
  (the sign of zero is not tracked; every quantity in scope is nonnegative).
* A `null`-dereference (`x!.y` on a missing ref) is modelled as
  `Except.error` carrying a TypeError message.
-/

namespace MDEditor

/-- JavaScript number: finite rational or an IEEE-754 special value. -/
inductive JSNum where
  | num : ℚ → JSNum
  | posInf : JSNum
  | negInf : JSNum
  | nan : JSNum
deriving DecidableEq

/-- IEEE-754 division as performed by the JS `/` operator (sign of zero
ignored: `0` stands for both `+0` and `-0`). -/
def jsDiv : JSNum → JSNum → JSNum
  | JSNum.nan, _ => JSNum.nan
  | _, JSNum.nan => JSNum.nan
  | JSNum.num a, JSNum.num b =>
      if b = 0 then
        (if a = 0 then JSNum.nan else if 0 < a then JSNum.posInf else JSNum.negInf)
      else JSNum.num (a / b)
  | JSNum.num _, JSNum.posInf => JSNum.num 0
  | JSNum.num _, JSNum.negInf => JSNum.num 0
  | JSNum.posInf, JSNum.num b => if 0 ≤ b then JSNum.posInf else JSNum.negInf
  | JSNum.negInf, JSNum.num b => if 0 ≤ b then JSNum.negInf else JSNum.posInf
  | JSNum.posInf, _ => JSNum.nan
  | JSNum.negInf, _ => JSNum.nan

/-- IEEE-754 multiplication as performed by the JS `*` operator. -/
def jsMul : JSNum → JSNum → JSNum
  | JSNum.nan, _ => JSNum.nan
  | _, JSNum.nan => JSNum.nan
  | JSNum.num a, JSNum.num b => JSNum.num (a * b)
  | JSNum.num a, JSNum.posInf =>
      if a = 0 then JSNum.nan else if 0 < a then JSNum.posInf else JSNum.negInf
  | JSNum.num a, JSNum.negInf =>
      if a = 0 then JSNum.nan else if 0 < a then JSNum.negInf else JSNum.posInf
  | JSNum.posInf, JSNum.num b =>
      if b = 0 then JSNum.nan else if 0 < b then JSNum.posInf else JSNum.negInf
  | JSNum.negInf, JSNum.num b =>
      if b = 0 then JSNum.nan else if 0 < b then JSNum.negInf else JSNum.posInf
  | JSNum.posInf, JSNum.posInf => JSNum.posInf
  | JSNum.posInf, JSNum.negInf => JSNum.negInf
  | JSNum.negInf, JSNum.posInf => JSNum.negInf
  | JSNum.negInf, JSNum.negInf => JSNum.posInf

/-- The component state (TS interface `MDEditorState`).  After the
`defaultProps` merge each field of the constructor's `props` is defined, so
`preview` and `value` are plain strings here. -/
structure MDEditorState where
  height : Int
  preview : String
  fullscreen : Bool
  value : String
deriving DecidableEq

/-- Merged props (what React hands the component after substituting
`defaultProps` for every prop left `undefined`). -/
structure Props where
  value : String
  preview : String
  fullscreen : Bool
  height : Int
deriving DecidableEq

/-- Raw props as the caller supplies them (`undefined` = `none`). -/
structure RawProps where
  value : Option String
  preview : Option String
  fullscreen : Option Bool
  height : Option Int

/-- React's `defaultProps` merge with the component's
`defaultProps = { value: '', preview: 'live', fullscreen: false, height: 200 }`. -/
def mergeProps (p : RawProps) : Props :=
  { value := p.value.getD ""
    preview := p.preview.getD "live"
    fullscreen := p.fullscreen.getD false
    height := p.height.getD 200 }

/-- The constructor: `this.state = { height, preview, fullscreen, value }`. -/
def initState (p : Props) : MDEditorState :=
  { height := p.height, preview := p.preview, fullscreen := p.fullscreen, value := p.value }

/-- Effects emitted to the component's collaborators. -/
inductive Eff where
  | renderHTML : Option String → Eff
  | onChangeCall : Option String → Eff
deriving DecidableEq

/-- JS `mdStr || ''`: any falsy value (`undefined` or `''`) becomes `''`. -/
def jsOrEmpty : Option String → String
  | none => ""
  | some s => if s = "" then "" else s

/-- Effect list of `handleChange(mdStr)`:
`this.preview.current!.renderHTML(mdStr); onChange && onChange(mdStr || '')`.
The argument handed to the `onChange` callback is always a defined string
(`some (jsOrEmpty mdStr)`). -/
def handleChangeEffs (mdStr : Option String) : List Eff :=
  [Eff.renderHTML mdStr, Eff.onChangeCall (some (jsOrEmpty mdStr))]

/-- `handleChange` dereferences `this.preview.current!`; with the preview ref
missing the non-null assertion is a runtime `TypeError`. -/
def handleChange (previewRef : Bool) (mdStr : Option String) : Except String (List Eff) :=
  if previewRef then Except.ok (handleChangeEffs mdStr)
  else Except.error "TypeError: this.preview.current is null"

/-- `componentDidMount`:
`this.handleChange(this.state.value)` followed by
`this.commandOrchestrator = new TextAreaCommandOrchestrator((this.textarea.current!.text.current || null))`.
`textareaRef = none` models `this.textarea.current === null` (the TextArea is
not rendered when the preview mode is `preview`); `some textCur` carries
`text.current`.  The returned `Option Unit` is the element the orchestrator is
bound to. -/
def componentDidMount (previewRef : Bool) (textareaRef : Option (Option Unit))
    (stValue : String) : Except String (List Eff × Option Unit) := do
  let effs ← handleChange previewRef (some stValue)
  match textareaRef with
  | none => Except.error "TypeError: this.textarea.current is null"
  | some textCur => Except.ok (effs, textCur)

/-- `UNSAFE_componentWillReceiveProps(nextProps)`: each state field is copied
from `nextProps` when it differs from the current props; a value change
additionally runs `handleChange(nextProps.value)` in the `setState` callback
(the component is mounted here, so the preview ref is available). -/
def willReceiveProps (prev next : Props) (st : MDEditorState) :
    MDEditorState × List Eff :=
  let st1 := if next.preview ≠ prev.preview then { st with preview := next.preview } else st
  let st2 := if next.fullscreen ≠ prev.fullscreen then { st1 with fullscreen := next.fullscreen } else st1
  if next.value ≠ prev.value then
    ({ st2 with value := next.value }, handleChangeEffs (some next.value))
  else (st2, [])

/-- A toolbar command (TS `ICommand`): its key and the carried value (used as
the target preview mode by the `preview` command). -/
structure ICommand where
  keyCommand : String
  value : String
deriving DecidableEq

/-- Component-level mutable context touched by `handleCommand`: the React
state and `document.body.style.overflow`. -/
structure Component where
  state : MDEditorState
  bodyOverflow : String
deriving DecidableEq

/-- `handleCommand(command)`.  `setState` is asynchronous inside a React event
handler, so the `document.body.style.overflow` line reads the pre-update
`this.state.fullscreen`.  The second component of the result is the list of
commands delegated to `this.commandOrchestrator.executeCommand` — the final
statement runs unconditionally, for every command. -/
def handleCommand (c : Component) (cmd : ICommand) : Component × List ICommand :=
  let old := c.state
  let st1 := if cmd.keyCommand = "preview" then { old with preview := cmd.value } else old
  let st2 := if cmd.keyCommand = "fullscreen" then { st1 with fullscreen := !old.fullscreen } else st1
  let ov := if cmd.keyCommand = "fullscreen" then
      (if old.fullscreen then "initial" else "hidden")
    else c.bodyOverflow
  ({ state := st2, bodyOverflow := ov }, [cmd])

/-- One scrollable pane as `handleScroll` reads it: `scrollHeight`,
`offsetHeight` (finite DOM measurements) and `scrollTop` (a JS number — it can
hold a special value after one of the handler's own writes). -/
structure Pane where
  scrollHeight : ℚ
  offsetHeight : ℚ
  scrollTop : JSNum
deriving DecidableEq

/-- Which element `e.target` is. -/
inductive ScrollSource where
  | textarea : ScrollSource
  | preview : ScrollSource
deriving DecidableEq

/-- `handleScroll(e)`.  `taPane = none` collapses the guard
`!this.textarea.current || !this.textarea.current.warp` together with the
inner `if (textarea && preview)` null check on `warp.current`; likewise
`prPane` for the preview side.  When both panes are present the handler
computes `scale = (ta.scrollHeight - ta.offsetHeight) / (pr.scrollHeight -
pr.offsetHeight)` and performs the two guarded writes; there is no guard on a
zero scrollable range. -/
def handleScroll (taPane prPane : Option Pane) (target : ScrollSource)
    (leftScroll : Bool) : Option Pane × Option Pane :=
  match taPane, prPane with
  | some ta, some pr =>
      let scale := jsDiv (JSNum.num (ta.scrollHeight - ta.offsetHeight))
                         (JSNum.num (pr.scrollHeight - pr.offsetHeight))
      let pr2 := if target = ScrollSource.textarea ∧ leftScroll then
          { pr with scrollTop := jsDiv ta.scrollTop scale }
        else pr
      let ta2 := if target = ScrollSource.preview ∧ leftScroll = false then
          { ta with scrollTop := jsMul pr.scrollTop scale }
        else ta
      (some ta2, some pr2)
  | _, _ => (taPane, prPane)

/-- `listStartsWith pat l` : `pat` is an initial segment of `l`. -/
def listStartsWith : List Char → List Char → Bool
  | [], _ => true
  | _ :: _, [] => false
  | a :: as, b :: bs => a = b && listStartsWith as bs

/-- `hasSeg pat l` : `pat` occurs as a contiguous segment of `l`. -/
def hasSeg (pat : List Char) : List Char → Bool
  | [] => pat.isEmpty
  | c :: rest => listStartsWith pat (c :: rest) || hasSeg pat rest

/-- `/(edit|live)/.test(mode)` from the render method's conditional around the
TextArea. -/
def regexTestEditLive (mode : String) : Bool :=
  hasSeg "edit".toList mode.toList || hasSeg "live".toList mode.toList

/-- The render method mounts the TextArea iff the regex test on
`this.state.preview` passes. -/
def editorPaneRendered (mode : String) : Bool := regexTestEditLive mode

/-- The render method mounts the MarkdownPreview unconditionally. -/
def previewPaneRendered (_mode : String) : Bool := true

/-- The DragBar is mounted iff
`visiableDragbar && this.state.preview !== 'preview' && !this.state.fullscreen`. -/
def dragBarRendered (visiableDragbar : Bool) (mode : String) (fullscreen : Bool) : Bool :=
  visiableDragbar && decide (mode ≠ "preview") && !fullscreen

/-- Modelled from the spec: the stylesheet `index.less` is not under `src/`;
per the spec the container class `w-md-editor-show-MODE` makes mode `edit`
show the editor only, mode `preview` show the preview only, and mode `live`
show both.  This is the editor-pane side of that rule. -/
def cssShowsEditor (mode : String) : Bool := mode = "edit" || mode = "live"

/-- Modelled from the spec: preview-pane side of the `index.less` visibility
rule (see `cssShowsEditor`). -/
def cssShowsPreview (mode : String) : Bool := mode = "preview" || mode = "live"

/-- A pane is shown iff render mounts it and the stylesheet displays it. -/
def editorPaneVisible (mode : String) : Bool := editorPaneRendered mode && cssShowsEditor mode

/-- Preview-pane visibility (mounted unconditionally, displayed per the
stylesheet). -/
def previewPaneVisible (mode : String) : Bool := previewPaneRendered mode && cssShowsPreview mode

/-- The DragBar `onChange` callback: `this.setState({ height: newHeight })` —
the reported value is stored as-is, no other field is touched. -/
def dragBarOnChange (st : MDEditorState) (newHeight : Int) : MDEditorState :=
  { st with height := newHeight }

/-- Arguments of the `renderHTML` calls in an effect list. -/
def renderArgs (effs : List Eff) : List (Option String) :=
  effs.filterMap fun e => match e with
    | Eff.renderHTML a => some a
    | _ => none

/-- Arguments of the `onChange` callback invocations in an effect list. -/
def onChangeArgs (effs : List Eff) : List (Option String) :=
  effs.filterMap fun e => match e with
    | Eff.onChangeCall a => some a
    | _ => none

/-- JS `s || ''` is the identity on defined strings (empty included). -/
theorem jsOrEmpty_some (s : String) : jsOrEmpty (some s) = s := by
  by_cases h : s = "" <;> simp [jsOrEmpty, h]

/-- Finite IEEE division with a nonzero divisor is rational division. -/
theorem jsDiv_num_num (a b : ℚ) (hb : b ≠ 0) :
    jsDiv (JSNum.num a) (JSNum.num b) = JSNum.num (a / b) := by
  simp [jsDiv, hb]

/-- Claim C1 counterexample: executing the `preview` command with value
`"preview"` does update the preview view state, but the command is still
delegated: `executeCommand` receives it (the delegated-command list of the
call is `[cmd]`, not `[]`). -/
theorem C1_counterexample :
    (ICommand.mk "preview" "preview").keyCommand = "preview" ∧
    (handleCommand ⟨⟨200, "live", false, "v"⟩, "visible"⟩
        (ICommand.mk "preview" "preview")).1.state.preview = "preview" ∧
    (handleCommand ⟨⟨200, "live", false, "v"⟩, "visible"⟩
        (ICommand.mk "preview" "preview")).2 =
      [ICommand.mk "preview" "preview"] := by
  refine ⟨rfl, ?_, rfl⟩
  simp [handleCommand]

/-- Claim C1 (amended): when `handleCommand` receives a command whose
`keyCommand` is `preview`, it updates the preview view state to the command's
carried value, and it still delegates the command to the orchestrator —
`executeCommand` is invoked with it (delegation is unconditional). -/
theorem C1_preview_command (c : Component) (cmd : ICommand)
    (h : cmd.keyCommand = "preview") :
    (handleCommand c cmd).1.state.preview = cmd.value ∧
    (handleCommand c cmd).2 = [cmd] := by
  have hfs : cmd.keyCommand ≠ "fullscreen" := by rw [h]; decide
  constructor
  · simp [handleCommand, h, hfs]
  · simp [handleCommand]

/-- Claim C1 witness: the amended statement at a concrete component and the
concrete `preview` command. -/
theorem C1_witness :
    (ICommand.mk "preview" "edit").keyCommand = "preview" ∧
    ((handleCommand ⟨⟨200, "live", false, "v"⟩, "visible"⟩
        (ICommand.mk "preview" "edit")).1.state.preview =
      (ICommand.mk "preview" "edit").value ∧
     (handleCommand ⟨⟨200, "live", false, "v"⟩, "visible"⟩
        (ICommand.mk "preview" "edit")).2 = [ICommand.mk "preview" "edit"]) :=
  ⟨rfl, C1_preview_command ⟨⟨200, "live", false, "v"⟩, "visible"⟩
      (ICommand.mk "preview" "edit") rfl⟩

/-- Claim C2: the code bug at a concrete input.  Both panes are mounted, the
textarea's scrollable range is zero (scrollHeight = offsetHeight = 100, hence
scrollTop = 0) and the preview's range is 100; the event comes from the
textarea with the editor driving.  The claim says the handler must not write;
the code computes `scale = 0 / 100 = 0` and assigns
`preview.scrollTop = 0 / 0 = NaN`. -/
theorem C2_nan_write :
    (handleScroll (some ⟨100, 100, JSNum.num 0⟩) (some ⟨200, 100, JSNum.num 0⟩)
        ScrollSource.textarea true).2 = some ⟨200, 100, JSNum.nan⟩ := by
  simp [handleScroll, jsDiv]
  norm_num

/-- Claim C3: with both scrollable ranges nonzero, the handler uses
`scale = taRange / prRange`; an editor-originated event with the editor
driving writes `preview.scrollTop = ta.scrollTop / scale`, a
preview-originated event with the preview driving writes
`textarea.scrollTop = pr.scrollTop * scale`; driving the editor to its
maximum offset (`taRange`) puts the preview exactly at its maximum
(`prRange`), and vice versa. -/
theorem C3_scroll_sync (tsh toh psh poh x y : ℚ)
    (hta : tsh - toh ≠ 0) (hpr : psh - poh ≠ 0) :
    ((handleScroll (some ⟨tsh, toh, JSNum.num x⟩) (some ⟨psh, poh, JSNum.num y⟩)
        ScrollSource.textarea true).2 =
      some ⟨psh, poh, JSNum.num (x / ((tsh - toh) / (psh - poh)))⟩) ∧
    ((handleScroll (some ⟨tsh, toh, JSNum.num x⟩) (some ⟨psh, poh, JSNum.num y⟩)
        ScrollSource.preview false).1 =
      some ⟨tsh, toh, JSNum.num (y * ((tsh - toh) / (psh - poh)))⟩) ∧
    ((tsh - toh) / ((tsh - toh) / (psh - poh)) = psh - poh) ∧
    ((psh - poh) * ((tsh - toh) / (psh - poh)) = tsh - toh) := by
  have hscale : (tsh - toh) / (psh - poh) ≠ 0 := div_ne_zero hta hpr
  refine ⟨?_, ?_, ?_, ?_⟩
  · simp [handleScroll, jsDiv_num_num _ _ hpr, jsDiv_num_num _ _ hscale]
  · simp [handleScroll, jsDiv_num_num _ _ hpr, jsMul]
  · field_simp
  · field_simp

/-- Claim C3 witness: editor 300/100 (range 200), preview 150/50 (range 100);
the editor at its maximum offset 200 drives the preview to exactly 100, and
the preview at 100 drives the editor to exactly 200. -/
theorem C3_witness :
    ((300 : ℚ) - 100 ≠ 0) ∧ ((150 : ℚ) - 50 ≠ 0) ∧
    (((handleScroll (some ⟨300, 100, JSNum.num 200⟩) (some ⟨150, 50, JSNum.num 100⟩)
        ScrollSource.textarea true).2 =
      some ⟨150, 50, JSNum.num (200 / ((300 - 100) / (150 - 50)))⟩) ∧
     ((handleScroll (some ⟨300, 100, JSNum.num 200⟩) (some ⟨150, 50, JSNum.num 100⟩)
        ScrollSource.preview false).1 =
      some ⟨300, 100, JSNum.num (100 * ((300 - 100) / (150 - 50)))⟩) ∧
     (((300 : ℚ) - 100) / (((300 : ℚ) - 100) / (150 - 50)) = 150 - 50) ∧
     (((150 : ℚ) - 50) * (((300 : ℚ) - 100) / (150 - 50)) = 300 - 100)) :=
  ⟨by norm_num, by norm_num,
   C3_scroll_sync 300 100 150 50 200 100 (by norm_num) (by norm_num)⟩

/-- Claim C4 counterexample: starting from fullscreen off with
`document.body.style.overflow = "visible"`, executing the fullscreen command
twice restores the flag but leaves the overflow at `"initial"`, not at its
original `"visible"` — the toggle writes the fixed values
`'hidden'`/`'initial'`, it does not save and restore. -/
theorem C4_counterexample :
    (handleCommand (handleCommand ⟨⟨200, "live", false, "v"⟩, "visible"⟩
          (ICommand.mk "fullscreen" "")).1
        (ICommand.mk "fullscreen" "")).1.bodyOverflow = "initial" ∧
    (handleCommand (handleCommand ⟨⟨200, "live", false, "v"⟩, "visible"⟩
          (ICommand.mk "fullscreen" "")).1
        (ICommand.mk "fullscreen" "")).1.bodyOverflow ≠ "visible" := by
  constructor
  · simp [handleCommand]
  · simp [handleCommand]

/-- Claim C4 (amended): executing the fullscreen command twice always returns
the fullscreen view-state flag to its original value; the page-level scroll
lock (`document.body.style.overflow`) returns to its original value exactly
when that original value was already the one the toggle writes for the
starting flag (`'hidden'` when fullscreen, `'initial'` when not) — otherwise
the double toggle leaves that written value behind. -/
theorem C4_fullscreen_twice (c : Component) :
    ((handleCommand (handleCommand c (ICommand.mk "fullscreen" "")).1
        (ICommand.mk "fullscreen" "")).1.state.fullscreen = c.state.fullscreen) ∧
    (c.bodyOverflow = (if c.state.fullscreen then "hidden" else "initial") →
      (handleCommand (handleCommand c (ICommand.mk "fullscreen" "")).1
          (ICommand.mk "fullscreen" "")).1.bodyOverflow = c.bodyOverflow) := by
  constructor
  · simp [handleCommand]
  · intro h
    rw [h]
    cases hf : c.state.fullscreen <;> simp [handleCommand, hf]

/-- Claim C4 witness: a consistent start (fullscreen off, overflow
`"initial"`) satisfies the amended statement's hypothesis, and both the flag
and the overflow are restored after the double toggle. -/
theorem C4_witness :
    ((handleCommand (handleCommand ⟨⟨200, "live", false, "v"⟩, "initial"⟩
          (ICommand.mk "fullscreen" "")).1
        (ICommand.mk "fullscreen" "")).1.state.fullscreen = false) ∧
    ((handleCommand (handleCommand ⟨⟨200, "live", false, "v"⟩, "initial"⟩
          (ICommand.mk "fullscreen" "")).1
        (ICommand.mk "fullscreen" "")).1.bodyOverflow = "initial") :=
  ⟨(C4_fullscreen_twice ⟨⟨200, "live", false, "v"⟩, "initial"⟩).1,
   (C4_fullscreen_twice ⟨⟨200, "live", false, "v"⟩, "initial"⟩).2 rfl⟩

/-- Claim C5 counterexample: with the textarea ref unavailable (the TextArea
is not rendered when the preview mode is `preview`), `componentDidMount` does
not silently no-op — the non-null assertion `this.textarea.current!.text`
raises a TypeError while building the command orchestrator. -/
theorem C5_counterexample :
    componentDidMount true none "abc" =
      Except.error "TypeError: this.textarea.current is null" := by
  rfl

/-- Claim C5 (amended): scroll synchronization does silently no-op when
either pane ref is unavailable, but mount-time command-orchestrator setup
does not: `componentDidMount` dereferences the preview ref in `handleChange`
and the textarea ref when constructing the orchestrator, and errors when
either is missing. -/
theorem C5_missing_refs (taPane prPane : Option Pane) (target : ScrollSource)
    (leftScroll : Bool) (h : taPane = none ∨ prPane = none) (v : String) :
    handleScroll taPane prPane target leftScroll = (taPane, prPane) ∧
    componentDidMount false (some (some ())) v =
      Except.error "TypeError: this.preview.current is null" ∧
    componentDidMount true none v =
      Except.error "TypeError: this.textarea.current is null" := by
  refine ⟨?_, rfl, rfl⟩
  rcases h with h | h
  · subst h; cases prPane <;> rfl
  · subst h; cases taPane <;> rfl

/-- Claim C5 witness: the amended statement with the textarea pane ref
missing and a concrete preview pane. -/
theorem C5_witness :
    handleScroll none (some ⟨10, 5, JSNum.num 0⟩) ScrollSource.textarea true =
      (none, some ⟨10, 5, JSNum.num 0⟩) ∧
    componentDidMount false (some (some ())) "x" =
      Except.error "TypeError: this.preview.current is null" ∧
    componentDidMount true none "x" =
      Except.error "TypeError: this.textarea.current is null" :=
  C5_missing_refs none (some ⟨10, 5, JSNum.num 0⟩) ScrollSource.textarea true
    (Or.inl rfl) "x"

/-- Claim C6: when the received props carry a `value` differing from the
previous one, the component performs exactly one renderer update — one
`renderHTML` call, with the new value — and exactly one `onChange` callback
invocation, whose argument is the new value; the state takes the new value. -/
theorem C6_value_change (prev next : Props) (st : MDEditorState)
    (h : next.value ≠ prev.value) :
    renderArgs (willReceiveProps prev next st).2 = [some next.value] ∧
    onChangeArgs (willReceiveProps prev next st).2 = [some next.value] ∧
    (willReceiveProps prev next st).1.value = next.value := by
  refine ⟨?_, ?_, ?_⟩ <;>
    simp [willReceiveProps, h, handleChangeEffs, renderArgs, onChangeArgs,
      jsOrEmpty_some]

/-- Claim C6 witness: value changes from `"a"` to `"b"`; exactly one render
and one callback, each carrying `"b"`. -/
theorem C6_witness :
    (Props.mk "b" "live" false 200).value ≠ (Props.mk "a" "live" false 200).value ∧
    (renderArgs (willReceiveProps (Props.mk "a" "live" false 200)
        (Props.mk "b" "live" false 200) ⟨200, "live", false, "a"⟩).2 = [some "b"] ∧
     onChangeArgs (willReceiveProps (Props.mk "a" "live" false 200)
        (Props.mk "b" "live" false 200) ⟨200, "live", false, "a"⟩).2 = [some "b"] ∧
     (willReceiveProps (Props.mk "a" "live" false 200)
        (Props.mk "b" "live" false 200) ⟨200, "live", false, "a"⟩).1.value = "b") :=
  ⟨by decide, C6_value_change (Props.mk "a" "live" false 200)
      (Props.mk "b" "live" false 200) ⟨200, "live", false, "a"⟩ (by decide)⟩

/-- Claim C7: an externally set preview mode lands in the view state, and the
shown pane combination is exactly: `edit` → editor only, `preview` → preview
only, `live` → both (pane mounting from the render method's conditions,
display from the stylesheet rule modelled from the spec). -/
theorem C7_preview_modes (prev next : Props) (st : MDEditorState)
    (h : next.preview ≠ prev.preview) :
    (willReceiveProps prev next st).1.preview = next.preview ∧
    (editorPaneVisible "edit" = true ∧ previewPaneVisible "edit" = false) ∧
    (editorPaneVisible "preview" = false ∧ previewPaneVisible "preview" = true) ∧
    (editorPaneVisible "live" = true ∧ previewPaneVisible "live" = true) := by
  refine ⟨?_, by decide, by decide, by decide⟩
  by_cases h2 : next.fullscreen ≠ prev.fullscreen <;>
    by_cases h3 : next.value ≠ prev.value <;>
      simp [willReceiveProps, h, h2, h3]

/-- Claim C7 witness: switching the preview mode from `live` to `edit`
externally. -/
theorem C7_witness :
    (Props.mk "a" "edit" false 200).preview ≠ (Props.mk "a" "live" false 200).preview ∧
    ((willReceiveProps (Props.mk "a" "live" false 200) (Props.mk "a" "edit" false 200)
        ⟨200, "live", false, "a"⟩).1.preview = "edit" ∧
     (editorPaneVisible "edit" = true ∧ previewPaneVisible "edit" = false) ∧
     (editorPaneVisible "preview" = false ∧ previewPaneVisible "preview" = true) ∧
     (editorPaneVisible "live" = true ∧ previewPaneVisible "live" = true)) :=
  ⟨by decide, C7_preview_modes (Props.mk "a" "live" false 200)
      (Props.mk "a" "edit" false 200) ⟨200, "live", false, "a"⟩ (by decide)⟩

/-- Claim C8: the DragBar callback stores exactly the reported height — any
value, with no min/max clamping applied by the component — and leaves the
preview mode, the fullscreen flag and the value untouched. -/
theorem C8_drag_height (st : MDEditorState) (newHeight : Int) :
    (dragBarOnChange st newHeight).height = newHeight ∧
    (dragBarOnChange st newHeight).preview = st.preview ∧
    (dragBarOnChange st newHeight).fullscreen = st.fullscreen ∧
    (dragBarOnChange st newHeight).value = st.value :=
  ⟨rfl, rfl, rfl, rfl⟩

/-- Claim C9: mounting with both refs available runs the change pipeline once
on the initial value: exactly one `renderHTML` with the merged initial value
and exactly one `onChange` invocation carrying it; when the raw `value` prop
is `undefined` the `defaultProps` merge makes that value the empty string. -/
theorem C9_mount (rawValue : Option String) (textCur : Option Unit) :
    componentDidMount true (some textCur)
        (initState (mergeProps ⟨rawValue, none, none, none⟩)).value =
      Except.ok ([Eff.renderHTML (some (initState (mergeProps ⟨rawValue, none, none, none⟩)).value),
                  Eff.onChangeCall (some (initState (mergeProps ⟨rawValue, none, none, none⟩)).value)],
                 textCur) ∧
    (rawValue = none → (initState (mergeProps ⟨rawValue, none, none, none⟩)).value = "") := by
  constructor
  · simp [componentDidMount, handleChange, handleChangeEffs, jsOrEmpty_some, bind,
      Except.bind]
  · intro h
    subst h
    rfl

/-- Claim C9 witness: mounting with the raw `value` prop `undefined`. -/
theorem C9_witness :
    componentDidMount true (some none)
        (initState (mergeProps ⟨none, none, none, none⟩)).value =
      Except.ok ([Eff.renderHTML (some (initState (mergeProps ⟨none, none, none, none⟩)).value),
                  Eff.onChangeCall (some (initState (mergeProps ⟨none, none, none, none⟩)).value)],
                 none) ∧
    ((none : Option String) = none → (initState (mergeProps ⟨none, none, none, none⟩)).value = "") :=
  C9_mount none none

/-- Claim C10: the change pipeline never hands the `onChange` callback an
undefined argument — every emitted `onChange` argument is a defined string;
a falsy input (`undefined` or `""`) is passed as `""`, a non-empty string is
passed unchanged. -/
theorem C10_onchange_defined (m : Option String) (s : String) :
    ((onChangeArgs (handleChangeEffs m)).all (fun a => a.isSome) = true) ∧
    (onChangeArgs (handleChangeEffs none) = [some ""]) ∧
    (onChangeArgs (handleChangeEffs (some "")) = [some ""]) ∧
    (s ≠ "" → onChangeArgs (handleChangeEffs (some s)) = [some s]) := by
  refine ⟨?_, rfl, rfl, ?_⟩
  · simp [onChangeArgs, handleChangeEffs]
  · intro hs
    simp [onChangeArgs, handleChangeEffs, jsOrEmpty_some]

/-- Claim C10 witness: the statement at the concrete inputs `some "hi"` and
`"hi"`, with the non-emptiness hypothesis discharged. -/
theorem C10_witness :
    ("hi" : String) ≠ "" ∧
    (((onChangeArgs (handleChangeEffs (some "hi"))).all (fun a => a.isSome) = true) ∧
     (onChangeArgs (handleChangeEffs none) = [some ""]) ∧
     (onChangeArgs (handleChangeEffs (some "")) = [some ""]) ∧
     (onChangeArgs (handleChangeEffs (some "hi")) = [some "hi"])) :=
  ⟨by decide,
   ⟨(C10_onchange_defined (some "hi") "hi").1,
    (C10_onchange_defined (some "hi") "hi").2.1,
    (C10_onchange_defined (some "hi") "hi").2.2.1,
    (C10_onchange_defined (some "hi") "hi").2.2.2 (by decide)⟩⟩

end MDEditor
